import Mathlib

/-!
Shallow embedding of the venti compiler front end
(src/errors.rs, src/venti_lexer/token.rs, src/venti_lexer/lexer.rs,
src/venti_parser/ast.rs, src/venti_parser/parser.rs, src/codegen/codegen.rs).

Machine integers are modelled as `Int`/`Nat`; fallible code returns `Except`;
the logos-generated lexer is modelled as a maximal-munch step function over the
token rules declared in token.rs.
-/

namespace Venti

/-- Error taxonomy, from src/errors.rs `enum VentiError`. -/
inductive VentiError where
  | SyntaxError (msg : String)
  | TypeError (msg : String)
  | RuntimeError (msg : String)
  | CodegenError (msg : String)
  | IOError (msg : String)
deriving DecidableEq, Repr

/-- Token kinds, from src/venti_lexer/token.rs `enum Token`.
The payload types are the ones declared on the Rust enum: `Identifier(String)`,
`StringLiteral(String)`, `NumberLiteral(i64)`, `BooleanLiteral(bool)`.
`Error` is the logos error variant (emitted for input matching no rule); the
whitespace-skip regex `[ \t\n\f]+` is attached to it. -/
inductive Token where
  | Error
  | Venti
  | Identifier (s : String)
  | StringLiteral (s : String)
  | NumberLiteral (n : Int)
  | BooleanLiteral (b : Bool)
  | Plus | Minus | Star | Slash
  | LParen | RParen | LBrace | RBrace | LBracket | RBracket
  | Comma | Semicolon | Equals
  | If | Else | For | While
  | Print | Async | Await
  | Int | Float | Bool
deriving DecidableEq, Repr

/-- The textual payload a token carries, where its Rust enum declaration gives
it a `String` field (`Identifier`, `StringLiteral`); `NumberLiteral` and
`BooleanLiteral` are declared with `i64` / `bool` fields, so they carry no
text. -/
def tokenTextPayload : Token → Option String
  | Token.Identifier s => some s
  | Token.StringLiteral s => some s
  | _ => none

/-- Whitespace skipped by the lexer: the regex `[ \t\n\f]+` in token.rs. -/
def isWs (c : Char) : Bool :=
  c = ' ' || c = '\t' || c = '\n' || c = '\x0c'

/-- Start character of the identifier regex `[a-zA-Z_][a-zA-Z0-9_]*`. -/
def isIdentStart (c : Char) : Bool := c.isAlpha || c = '_'

/-- Continuation character of the identifier regex. -/
def isIdentCont (c : Char) : Bool := c.isAlphanum || c = '_'

/-- Decimal value of a digit run, the `i64` payload of `NumberLiteral` for the
regex `[0-9]+` (literals exceeding the i64 range are not modelled; no claim
reaches them). -/
def decimalValue (ds : List Char) : Int :=
  Int.ofNat (ds.foldl (fun a c => a * 10 + (c.toNat - '0'.toNat)) 0)

/-- Keyword classification: the `#[token("...")]` literal rules of token.rs
together with the `true|false` regex. All these spellings are also matched by
the identifier regex at the same length, and logos gives the literal/keyword
rules the higher priority on a tie, so an identifier-shaped maximal match is
first looked up here. -/
def keywordOf : String → Option Token
  | "venti" => some Token.Venti
  | "if_venti" => some Token.If
  | "else_venti" => some Token.Else
  | "for_venti" => some Token.For
  | "while_venti" => some Token.While
  | "printventi" => some Token.Print
  | "async" => some Token.Async
  | "await" => some Token.Await
  | "int" => some Token.Int
  | "float" => some Token.Float
  | "bool" => some Token.Bool
  | "true" => some (Token.BooleanLiteral true)
  | "false" => some (Token.BooleanLiteral false)
  | _ => none

/-- Single-character operator and delimiter rules of token.rs. -/
def opTok : Char → Option Token
  | '+' => some Token.Plus
  | '-' => some Token.Minus
  | '*' => some Token.Star
  | '/' => some Token.Slash
  | '(' => some Token.LParen
  | ')' => some Token.RParen
  | '{' => some Token.LBrace
  | '}' => some Token.RBrace
  | '[' => some Token.LBracket
  | ']' => some Token.RBracket
  | ',' => some Token.Comma
  | ';' => some Token.Semicolon
  | '=' => some Token.Equals
  | _ => none

/-- One step of the logos-generated lexer over the rules of token.rs:
skip whitespace, then emit the longest match starting at the current position
(`none` when the input is exhausted). Input matching no rule yields the
`Token.Error` variant spanning the offending character, and lexing continues
after it (logos 0.12 error-variant semantics, which is the reading under which
`Lexer::next_token`'s `Option<Token>` match in lexer.rs is meaningful). -/
def lexStep (cs : List Char) : Option (Token × List Char) :=
  match cs.dropWhile isWs with
  | [] => none
  | c :: rest =>
    if c.isDigit then
      some (Token.NumberLiteral (decimalValue ((c :: rest).takeWhile Char.isDigit)),
            (c :: rest).dropWhile Char.isDigit)
    else if isIdentStart c then
      let w := String.mk ((c :: rest).takeWhile isIdentCont)
      some ((keywordOf w).getD (Token.Identifier w), (c :: rest).dropWhile isIdentCont)
    else if c = '"' then
      -- regex "[^"]*" : the payload is the whole slice, quotes included
      match rest.takeWhile (fun d => d ≠ '"'), rest.dropWhile (fun d => d ≠ '"') with
      | body, '"' :: r =>
          some (Token.StringLiteral (String.mk ('"' :: (body ++ ['"']))), r)
      | _, _ => some (Token.Error, rest)
    else
      match opTok c with
      | some t => some (t, rest)
      | none => some (Token.Error, rest)

/-- src/venti_lexer/lexer.rs `Lexer::next_token`: `Some(token)` (including the
`Error` variant) becomes `Ok(token)`; `None` — exhausted input — becomes
`Err(VentiError::SyntaxError("Unexpected end of input"))`. The lexer state is
the remaining input. -/
def nextToken (cs : List Char) : Except VentiError (Token × List Char) :=
  match lexStep cs with
  | some (t, r) => Except.ok (t, r)
  | none => Except.error (VentiError.SyntaxError "Unexpected end of input")

/-- Repeated `lexStep` until exhaustion (fuel-indexed; each productive step
consumes at least one character, so `length + 1` fuel is ample). -/
def lexList : Nat → List Char → List Token
  | 0, _ => []
  | fuel + 1, cs =>
    match lexStep cs with
    | some (t, r) => t :: lexList fuel r
    | none => []

/-- The full token sequence of a source string, as collected by the
tokenization loop in src/main.rs. -/
def lexAll (s : String) : List Token :=
  lexList (s.length + 1) s.toList

/-- `true` when some rule of token.rs matches at a character `c` (so `lexStep`
does not emit `Token.Error` there). -/
def charStartsRule (c : Char) : Bool :=
  isWs c || c.isDigit || isIdentStart c || c = '"' || (opTok c).isSome

end Venti

namespace Venti

/-- Binary operators, from src/venti_parser/ast.rs `enum BinOp`. -/
inductive BinOp where
  | Add | Subtract | Multiply | Divide
deriving DecidableEq, Repr

/-- Alias for the ambient string type, used for constructor fields of
inductives that also declare a constructor named `String`. -/
abbrev StringT := String

/-- Expressions, from src/venti_parser/ast.rs `enum Expr`, together with the
`Float(f64)` variant that codegen.rs's `compile_expr` matches (ast.rs's enum
declaration omits it; the float payload is carried as its 64-bit pattern and
never computed with). -/
inductive Expr : Type where
  | Number (n : Int)
  | Float (bits : Nat)
  | String (s : StringT)
  | Boolean (b : Bool)
  | Identifier (id : StringT)
  | BinaryOp (left : Expr) (op : BinOp) (right : Expr)
  | Array (elements : List Expr)
  | Async (inner : Expr)
  | Await (inner : Expr)
deriving Repr

/-- Statements. ast.rs's `enum Statement` declares `VariableDeclaration`,
`Print` and `AsyncFunction`; parser.rs additionally constructs
`Statement::FunctionCall` and `Statement::VariableAssignment` and codegen.rs
matches `Statement::FunctionCall`, so the embedding takes the union of the
variants the repository's files use. -/
inductive Statement where
  | VariableDeclaration (identifier : String) (value : Expr)
  | VariableAssignment (identifier : String) (value : Expr)
  | Print (value : Expr)
  | FunctionCall (identifier : String) (args : List Expr)
  | AsyncFunction (identifier : String) (body : List Statement)
deriving Repr

/-- Result of a parsing method: `ok` carries the produced value and the
remaining tokens (the state of the `Peekable<IntoIter<Token>>` iterator);
`err` a returned `VentiError`. `outOfFuel` is an artifact of the fuel-indexed
recursion used to embed the recursive-descent loops; the fuel bounds used in
the theorems below never reach it. -/
inductive PRes (α : Type) where
  | ok (a : α) (rest : List Token)
  | err (e : VentiError)
  | outOfFuel
deriving Repr

/-- Sequencing of parsing steps (the `?` operator on parser results). -/
def PRes.andThen {α β : Type} : PRes α → (α → List Token → PRes β) → PRes β
  | .ok a rest, f => f a rest
  | .err e, _ => .err e
  | .outOfFuel, _ => .outOfFuel

/-- Rust `{:?}` (derived Debug) rendering of a token, used by parser.rs in
`format!("Unexpected token: {:?}", ...)` messages. Escaping of special
characters inside `String` payloads is simplified; the claims below only
format payload-free tokens. -/
def fmtTok : Token → String
  | Token.Error => "Error"
  | Token.Venti => "Venti"
  | Token.Identifier s => "Identifier(\"" ++ s ++ "\")"
  | Token.StringLiteral s => "StringLiteral(\"" ++ s ++ "\")"
  | Token.NumberLiteral n => "NumberLiteral(" ++ toString n ++ ")"
  | Token.BooleanLiteral b => "BooleanLiteral(" ++ (if b then "true" else "false") ++ ")"
  | Token.Plus => "Plus"
  | Token.Minus => "Minus"
  | Token.Star => "Star"
  | Token.Slash => "Slash"
  | Token.LParen => "LParen"
  | Token.RParen => "RParen"
  | Token.LBrace => "LBrace"
  | Token.RBrace => "RBrace"
  | Token.LBracket => "LBracket"
  | Token.RBracket => "RBracket"
  | Token.Comma => "Comma"
  | Token.Semicolon => "Semicolon"
  | Token.Equals => "Equals"
  | Token.If => "If"
  | Token.Else => "Else"
  | Token.For => "For"
  | Token.While => "While"
  | Token.Print => "Print"
  | Token.Async => "Async"
  | Token.Await => "Await"
  | Token.Int => "Int"
  | Token.Float => "Float"
  | Token.Bool => "Bool"

/-- Rust `{:?}` rendering of `Option<&Token>` (what `current_token` returns). -/
def fmtOpt : Option Token → String
  | none => "None"
  | some t => "Some(" ++ fmtTok t ++ ")"

mutual

/-- parser.rs `Parser::parse`: push statements while tokens remain. -/
def parse : Nat → List Token → PRes (List Statement)
  | 0, _ => .outOfFuel
  | f + 1, ts =>
    match ts with
    | [] => .ok [] []
    | _ =>
      (statement f ts).andThen fun s ts1 =>
        (parse f ts1).andThen fun ss ts2 => .ok (s :: ss) ts2

/-- parser.rs `Parser::statement`: dispatch on the leading token. There is no
arm for `Token::Async` (or any other token kind): those fall to the catch-all
`SyntaxError`. -/
def statement : Nat → List Token → PRes Statement
  | 0, _ => .outOfFuel
  | f + 1, ts =>
    match ts with
    | Token.Venti :: rest => variable_declaration f rest
    | Token.Print :: rest => print_statement f rest
    | Token.Identifier id :: rest => function_or_variable f (Token.Identifier id :: rest)
    | _ => .err (.SyntaxError ("Unexpected token: " ++ fmtOpt ts.head?))

/-- parser.rs `Parser::variable_declaration` (the `venti` keyword is already
consumed): identifier, `=`, expression, `;`. -/
def variable_declaration : Nat → List Token → PRes Statement
  | 0, _ => .outOfFuel
  | f + 1, ts =>
    match ts with
    | Token.Identifier id :: rest =>
      match rest with
      | Token.Equals :: rest2 =>
        (expression f rest2).andThen fun v ts3 =>
          match ts3 with
          | Token.Semicolon :: rest4 => .ok (Statement.VariableDeclaration id v) rest4
          | _ => .err (.SyntaxError "Expected \x27;\x27 at the end of variable declaration.")
      | _ => .err (.SyntaxError "Expected \x27=\x27 in variable declaration.")
    | _ => .err (.SyntaxError "Expected identifier in variable declaration.")

/-- parser.rs `Parser::print_statement`: expression, `;`. -/
def print_statement : Nat → List Token → PRes Statement
  | 0, _ => .outOfFuel
  | f + 1, ts =>
    (expression f ts).andThen fun v ts1 =>
      match ts1 with
      | Token.Semicolon :: rest => .ok (Statement.Print v) rest
      | _ => .err (.SyntaxError "Expected \x27;\x27 at the end of print statement.")

/-- parser.rs `Parser::expression`: delegates to `term`. -/
def expression : Nat → List Token → PRes Expr
  | 0, _ => .outOfFuel
  | f + 1, ts => term f ts

/-- parser.rs `Parser::term`: a factor followed by a left-associative
`+`/`-` loop. -/
def term : Nat → List Token → PRes Expr
  | 0, _ => .outOfFuel
  | f + 1, ts => (factor f ts).andThen fun l ts1 => termLoop f l ts1

/-- The `while` loop inside `Parser::term`. -/
def termLoop : Nat → Expr → List Token → PRes Expr
  | 0, _, _ => .outOfFuel
  | f + 1, left, ts =>
    match ts with
    | Token.Plus :: rest =>
      (factor f rest).andThen fun r ts1 =>
        termLoop f (Expr.BinaryOp left BinOp.Add r) ts1
    | Token.Minus :: rest =>
      (factor f rest).andThen fun r ts1 =>
        termLoop f (Expr.BinaryOp left BinOp.Subtract r) ts1
    | _ => .ok left ts

/-- parser.rs `Parser::factor`: a primary followed by a left-associative
`*`/`/` loop. -/
def factor : Nat → List Token → PRes Expr
  | 0, _ => .outOfFuel
  | f + 1, ts => (primary f ts).andThen fun l ts1 => factorLoop f l ts1

/-- The `while` loop inside `Parser::factor`. -/
def factorLoop : Nat → Expr → List Token → PRes Expr
  | 0, _, _ => .outOfFuel
  | f + 1, left, ts =>
    match ts with
    | Token.Star :: rest =>
      (primary f rest).andThen fun r ts1 =>
        factorLoop f (Expr.BinaryOp left BinOp.Multiply r) ts1
    | Token.Slash :: rest =>
      (primary f rest).andThen fun r ts1 =>
        factorLoop f (Expr.BinaryOp left BinOp.Divide r) ts1
    | _ => .ok left ts

/-- parser.rs `Parser::primary`: number, string, identifier, parenthesized
expression or array literal; no arm for boolean (or any other) tokens. -/
def primary : Nat → List Token → PRes Expr
  | 0, _ => .outOfFuel
  | f + 1, ts =>
    match ts with
    | Token.NumberLiteral n :: rest => .ok (Expr.Number n) rest
    | Token.StringLiteral s :: rest => .ok (Expr.String s) rest
    | Token.Identifier id :: rest => .ok (Expr.Identifier id) rest
    | Token.LParen :: rest =>
      (expression f rest).andThen fun e ts1 =>
        match ts1 with
        | Token.RParen :: rest2 => .ok e rest2
        | _ => .err (.SyntaxError "Expected \x27)\x27")
    | Token.LBracket :: _ => parse_array f ts
    | _ => .err (.SyntaxError ("Unexpected token: " ++ fmtOpt ts.head?))

/-- parser.rs `Parser::parse_array`: consumes the `[` then loops. -/
def parse_array : Nat → List Token → PRes Expr
  | 0, _ => .outOfFuel
  | f + 1, ts => arrayLoop f [] ts.tail

/-- The `while` loop inside `Parser::parse_array`: while the current token is
not `]`, parse an element expression; a following `,` is consumed, a
following `]` breaks, and any other token goes straight to the next element
expression. The final `advance` consumes the `]`. -/
def arrayLoop : Nat → List Expr → List Token → PRes Expr
  | 0, _, _ => .outOfFuel
  | f + 1, acc, ts =>
    match ts with
    | Token.RBracket :: rest => .ok (Expr.Array acc.reverse) rest
    | _ =>
      (expression f ts).andThen fun e ts1 =>
        match ts1 with
        | Token.Comma :: rest => arrayLoop f (e :: acc) rest
        | Token.RBracket :: rest => .ok (Expr.Array (e :: acc).reverse) rest
        | _ => arrayLoop f (e :: acc) ts1

/-- parser.rs `Parser::function_or_variable`: an identifier followed by `(`
parses a call's argument list; otherwise an expression and `;` form a
variable assignment. -/
def function_or_variable : Nat → List Token → PRes Statement
  | 0, _ => .outOfFuel
  | f + 1, ts =>
    match ts with
    | Token.Identifier id :: rest =>
      match rest with
      | Token.LParen :: rest2 => argsLoop f id [] rest2
      | _ =>
        (expression f rest).andThen fun v ts1 =>
          match ts1 with
          | Token.Semicolon :: rest2 => .ok (Statement.VariableAssignment id v) rest2
          | _ => .err (.SyntaxError "Expected \x27;\x27 after variable assignment.")
    | _ => .err (.SyntaxError "Expected identifier")

/-- The argument-list `while` loop inside `Parser::function_or_variable`:
same shape as `arrayLoop`, with `)` as the closing delimiter. -/
def argsLoop : Nat → String → List Expr → List Token → PRes Statement
  | 0, _, _, _ => .outOfFuel
  | f + 1, id, acc, ts =>
    match ts with
    | Token.RParen :: rest => .ok (Statement.FunctionCall id acc.reverse) rest
    | _ =>
      (expression f ts).andThen fun e ts1 =>
        match ts1 with
        | Token.Comma :: rest => argsLoop f id (e :: acc) rest
        | Token.RParen :: rest => .ok (Statement.FunctionCall id (e :: acc).reverse) rest
        | _ => argsLoop f id (e :: acc) ts1

end

end Venti

namespace Venti

/-- LLVM first-class types as used by codegen.rs: integer types of a given
bit width, `f64`, pointer types, and sized array types. -/
inductive CgType where
  | intTy (width : Nat)
  | f64
  | ptrTy
  | arrTy (n : Nat)
deriving DecidableEq, Repr

/-- LLVM values (`BasicValueEnum`) as produced by codegen.rs: integer and
float constants, the constant text stored by `build_global_string_ptr`, the
address of a named global, the pointer returned by an `alloca`, the pointer
result of a `gep`, and the integer result of an arithmetic instruction
(identified by its position in the emission order). -/
inductive CgValue where
  | intConst (width : Nat) (v : Nat)
  | floatConst (bits : Nat)
  | strConst (s : String)
  | globalPtr (name : String)
  | allocaPtr (idx : Nat)
  | instrPtr (idx : Nat)
  | intInstr (width : Nat) (idx : Nat)
deriving DecidableEq, Repr

/-- `BasicValueEnum::get_type`. -/
def typeOfValue : CgValue → CgType
  | CgValue.intConst w _ => CgType.intTy w
  | CgValue.floatConst _ => CgType.f64
  | CgValue.strConst s => CgType.arrTy (s.length + 1)
  | CgValue.globalPtr _ => CgType.ptrTy
  | CgValue.allocaPtr _ => CgType.ptrTy
  | CgValue.instrPtr _ => CgType.ptrTy
  | CgValue.intInstr w _ => CgType.intTy w

/-- `BasicValueEnum::into_int_value` succeeds exactly on integer-typed values
(returning their width); on any other value the Rust method panics. -/
def intWidth? : CgValue → Option Nat
  | CgValue.intConst w _ => some w
  | CgValue.intInstr w _ => some w
  | _ => none

/-- The `i64` payload of a number literal reinterpreted as `u64`
(`n as u64` in `const_int(n as u64, false)`). -/
def i64AsU64 (n : Int) : Nat := (n % (2 : Int) ^ 64).toNat

/-- Instructions emitted through the `Builder` by codegen.rs. -/
inductive Instr where
  | add (l r : CgValue)
  | sub (l r : CgValue)
  | mul (l r : CgValue)
  | sdiv (l r : CgValue)
  | gep (base : CgValue) (index : CgValue)
  | store (ptr : CgValue) (val : CgValue)
  | alloca (count : Nat)
  | call (fname : String) (args : List CgValue)
  | retVoid
deriving DecidableEq, Repr

/-- The mutable state of a lowering pass: the module's global variables
(actual symbol name, type, optional initializer, in creation order), its
declared functions, and the instructions emitted through the builder in
emission order (basic-block boundaries are not tracked; codegen.rs positions
the builder once per async function and never repositions it afterwards). -/
structure CGState where
  globals : List (String × CgType × Option CgValue)
  functions : List String
  instrs : List Instr
deriving DecidableEq, Repr

/-- Names occupied in the module's symbol table (globals and functions share
one table in LLVM). -/
def takenNames (st : CGState) : List String :=
  st.globals.map (fun g => g.1) ++ st.functions

/-- LLVM's symbol-table behavior when a value is created under an
already-taken name: the new value is given a fresh name by appending `.N`
(the existing value keeps the requested name); `LLVMAddGlobal` /
`LLVMAddFunction` never replace an existing symbol. -/
def uniquify (taken : List String) (base : String) : String :=
  if taken.contains base then
    match (List.range (taken.length + 1)).find?
        (fun k => !taken.contains (base ++ "." ++ toString (k + 1))) with
    | some k => base ++ "." ++ toString (k + 1)
    | none => base
  else base

/-- `Module::get_global` (`LLVMGetNamedGlobal`): exact-name lookup among the
module's global variables. -/
def getGlobal (st : CGState) (name : String) : Option (String × CgType × Option CgValue) :=
  st.globals.find? (fun g => g.1 = name)

/-- The initializer of the global variable bound to `name`, if any. -/
def getGlobalInit (st : CGState) (name : String) : Option CgValue :=
  match getGlobal st name with
  | some (_, _, i) => i
  | none => none

/-- `Module::get_function` (`LLVMGetNamedFunction`): exact-name lookup among
the module's functions. -/
def getFunction (st : CGState) (name : String) : Option String :=
  st.functions.find? (fun g => g = name)

/-- Outcome of a lowering step that does not return normally: `err` is a
returned `Err(VentiError)`; `fatal` is a Rust panic — `into_int_value`
called on a non-integer value — or a `match` with no arm for the scrutinee.
`outOfFuel` is an artifact of the fuel-indexed embedding of the statement
recursion; the fuel bounds used in the theorems below never reach it. -/
inductive CgErr where
  | err (e : VentiError)
  | fatal
  | outOfFuel
deriving DecidableEq, Repr

mutual

/-- codegen.rs `CodeGen::compile_expr`. Literals become constants; a string
interns a global (named `str`, uniquified) and yields its pointer; an
identifier yields the pointer of the looked-up global (no load); a binary
operation forces both operands through `into_int_value` and emits the single
corresponding integer instruction; an array allocates a block and stores each
element at its offset; `await` is compiled through the identity placeholder
`async_task`; anything else (the `Async` wrapper) is an unsupported
expression. -/
def compileExpr (st : CGState) : Expr → Except CgErr (CgValue × CGState)
  | Expr.Number n => .ok (CgValue.intConst 64 (i64AsU64 n), st)
  | Expr.Float bits => .ok (CgValue.floatConst bits, st)
  | Expr.Boolean b => .ok (CgValue.intConst 1 (if b then 1 else 0), st)
  | Expr.String s =>
    let uname := uniquify (takenNames st) "str"
    .ok (CgValue.globalPtr uname,
         { st with globals :=
            st.globals ++ [(uname, CgType.arrTy (s.length + 1), some (CgValue.strConst s))] })
  | Expr.Identifier id =>
    match getGlobal st id with
    | some _ => .ok (CgValue.globalPtr id, st)
    | none => .error (CgErr.err (VentiError.CodegenError ("Undefined variable \x27" ++ id ++ "\x27")))
  | Expr.BinaryOp l op r =>
    match compileExpr st l with
    | .error er => .error er
    | .ok (lv, st1) =>
      match intWidth? lv with
      | none => .error CgErr.fatal
      | some wl =>
        match compileExpr st1 r with
        | .error er => .error er
        | .ok (rv, st2) =>
          match intWidth? rv with
          | none => .error CgErr.fatal
          | some _ =>
            let ins := match op with
              | BinOp.Add => Instr.add lv rv
              | BinOp.Subtract => Instr.sub lv rv
              | BinOp.Multiply => Instr.mul lv rv
              | BinOp.Divide => Instr.sdiv lv rv
            .ok (CgValue.intInstr wl st2.instrs.length,
                 { st2 with instrs := st2.instrs ++ [ins] })
  | Expr.Array es =>
    let idx := st.instrs.length
    let st1 := { st with instrs := st.instrs ++ [Instr.alloca es.length] }
    compileArrayElems (CgValue.allocaPtr idx) 0 st1 es
  | Expr.Await inner => compileExpr st inner
  | Expr.Async _ => .error (CgErr.err (VentiError.CodegenError "Unsupported expression"))

/-- The element loop of the `Expr::Array` arm: each element is compiled,
forced through `into_int_value`, and stored through a `gep` at its positional
offset; the loop yields the block's base pointer. -/
def compileArrayElems (base : CgValue) (i : Nat) (st : CGState) :
    List Expr → Except CgErr (CgValue × CGState)
  | [] => .ok (base, st)
  | e :: rest =>
    match compileExpr st e with
    | .error er => .error er
    | .ok (v, st1) =>
      match intWidth? v with
      | none => .error CgErr.fatal
      | some _ =>
        let gidx := st1.instrs.length
        let st2 := { st1 with instrs := st1.instrs ++ [Instr.gep base (CgValue.intConst 32 i)] }
        let st3 := { st2 with instrs := st2.instrs ++ [Instr.store (CgValue.instrPtr gidx) v] }
        compileArrayElems base (i + 1) st3 rest

end

/-- The argument fold of the `Statement::FunctionCall` arm: arguments are
compiled left to right, stopping at the first error. -/
def compileArgs (st : CGState) : List Expr → Except CgErr (List CgValue × CGState)
  | [] => .ok ([], st)
  | e :: rest =>
    match compileExpr st e with
    | .error er => .error er
    | .ok (v, st1) =>
      match compileArgs st1 rest with
      | .error er => .error er
      | .ok (vs, st2) => .ok (v :: vs, st2)

mutual

/-- codegen.rs `CodeGen::compile_statement`. A variable declaration compiles
its initializer and installs a new global of the value's type via
`add_global` + `set_initializer` (under a uniquified name when the requested
one is taken); a function call first resolves the callee then compiles the
arguments and emits the call; print compiles its value and emits a `printf`
call; an async function is delegated to `compile_async_function`. The Rust
`match` has no arm for `Statement::VariableAssignment` (the variant
parser.rs produces), so that case is a fatal outcome. -/
def compileStatement : Nat → CGState → Statement → Except CgErr CGState
  | 0, _, _ => .error CgErr.outOfFuel
  | _ + 1, st, Statement.VariableDeclaration id v =>
    match compileExpr st v with
    | .error er => .error er
    | .ok (val, st1) =>
      let uname := uniquify (takenNames st1) id
      .ok { st1 with globals := st1.globals ++ [(uname, typeOfValue val, some val)] }
  | _ + 1, st, Statement.FunctionCall id args =>
    match getFunction st id with
    | none => .error (CgErr.err (VentiError.CodegenError ("Undefined function \x27" ++ id ++ "\x27")))
    | some _ =>
      match compileArgs st args with
      | .error er => .error er
      | .ok (vs, st1) => .ok { st1 with instrs := st1.instrs ++ [Instr.call id vs] }
  | _ + 1, st, Statement.Print e =>
    match compileExpr st e with
    | .error er => .error er
    | .ok (v, st1) =>
      match getFunction st1 "printf" with
      | none => .error (CgErr.err (VentiError.CodegenError "Expected \x27printf\x27 function"))
      | some _ => .ok { st1 with instrs := st1.instrs ++ [Instr.call "printf" [v]] }
  | f + 1, st, Statement.AsyncFunction id body => compileAsyncFunction f st id body
  | _ + 1, _, Statement.VariableAssignment _ _ => .error CgErr.fatal

/-- codegen.rs `CodeGen::compile_async_function`: adds a `void()` function of
the given name (uniquified when taken), compiles the body statements, and
emits the trailing `ret void`. -/
def compileAsyncFunction : Nat → CGState → String → List Statement → Except CgErr CGState
  | 0, _, _, _ => .error CgErr.outOfFuel
  | f + 1, st, id, body =>
    let fname := uniquify (takenNames st) id
    let st1 := { st with functions := st.functions ++ [fname] }
    match compileStatements f st1 body with
    | .error er => .error er
    | .ok st2 => .ok { st2 with instrs := st2.instrs ++ [Instr.retVoid] }

/-- The statement fold shared by `CodeGen::compile` and the body loop of
`compile_async_function`. -/
def compileStatements : Nat → CGState → List Statement → Except CgErr CGState
  | 0, _, _ => .error CgErr.outOfFuel
  | _ + 1, st, [] => .ok st
  | f + 1, st, s :: rest =>
    match compileStatement f st s with
    | .error er => .error er
    | .ok st1 => compileStatements f st1 rest

end

/-- codegen.rs `CodeGen::new`: a fresh module named `venti` holding only the
`printf` declaration, an empty builder, no globals. -/
def initState : CGState := { globals := [], functions := ["printf"], instrs := [] }

/-- codegen.rs `CodeGen::compile`: folds `compile_statement` over the program
from the fresh state (the serialization of the module to `output.ll` is an
I/O side effect outside the model). -/
def compileProgram (fuel : Nat) (statements : List Statement) : Except CgErr CGState :=
  compileStatements fuel initState statements

end Venti

namespace Venti

/-! ## Claim theorems -/

/-- C1 (counterexample). Lowering `venti x = 1;` then `venti x = 2;` succeeds,
but the module's global binding for `x` holds the FIRST initializer `1`, not
the later `2` claimed by last-write-wins: `add_global` never replaces an
existing symbol, it creates a second global under a uniquified name. -/
theorem c1_last_write_wins_counterexample :
    (compileProgram 8 [Statement.VariableDeclaration "x" (Expr.Number 1),
                       Statement.VariableDeclaration "x" (Expr.Number 2)]).map
        (fun m => getGlobalInit m "x")
      = Except.ok (some (CgValue.intConst 64 1)) ∧
    some (CgValue.intConst 64 1) ≠ some (CgValue.intConst 64 2) := by
  exact ⟨rfl, by decide⟩

/-- C1 (amended). Re-declaring a name is not an error: lowering succeeds, the
second declaration creates a second global under the uniquified name `x.1`
holding the later initializer `2`, and the module's binding for `x` keeps the
earlier initializer `1` (first-write-wins for lookup by name). -/
theorem c1_last_write_wins_amended :
    compileProgram 8 [Statement.VariableDeclaration "x" (Expr.Number 1),
                      Statement.VariableDeclaration "x" (Expr.Number 2)]
      = Except.ok { globals := [("x", CgType.intTy 64, some (CgValue.intConst 64 1)),
                                ("x.1", CgType.intTy 64, some (CgValue.intConst 64 2))],
                    functions := ["printf"], instrs := [] } ∧
    getGlobalInit { globals := [("x", CgType.intTy 64, some (CgValue.intConst 64 1)),
                                ("x.1", CgType.intTy 64, some (CgValue.intConst 64 2))],
                    functions := ["printf"], instrs := [] } "x"
      = some (CgValue.intConst 64 1) := by
  exact ⟨rfl, rfl⟩

/-- C2 (counterexample). At the unmatched byte `@`, `next_token` returns
`Ok(Token::Error)` — not an error result, and carrying no slice — and the
token sequence resumes past it: lexing `1 @ 2` yields the number `1`, the
error token, then the number `2`. -/
theorem c2_lex_failure_counterexample :
    nextToken ['@'] = Except.ok (Token.Error, []) ∧
    tokenTextPayload Token.Error = none ∧
    lexAll "1 @ 2" = [Token.NumberLiteral 1, Token.Error, Token.NumberLiteral 2] := by
  exact ⟨rfl, rfl, rfl⟩

/-- C2 (amended). Input starting with a character matching no token rule makes
the lexer emit the payload-free `Token::Error` variant wrapped in `Ok` (not a
lex failure), consuming that character, and the sequence continues past it. -/
theorem c2_lex_failure_amended (c : Char) (rest : List Char)
    (h : charStartsRule c = false) :
    lexStep (c :: rest) = some (Token.Error, rest) ∧
    nextToken (c :: rest) = Except.ok (Token.Error, rest) := by
  simp only [charStartsRule, Bool.or_eq_false_iff] at h
  obtain ⟨⟨⟨⟨h1, h2⟩, h3⟩, h4⟩, h5⟩ := h
  have hop : opTok c = none := by
    cases hoc : opTok c with
    | none => rfl
    | some t => rw [hoc] at h5; simp at h5
  have hq : ¬(c = '"') := by simpa using h4
  have hstep : lexStep (c :: rest) = some (Token.Error, rest) := by
    unfold lexStep
    rw [List.dropWhile_cons]
    simp [h1, h2, h3, hq, hop]
  exact ⟨hstep, by unfold nextToken; rw [hstep]⟩

/-- C2 (witness for the amended theorem, at `c = '@'`). -/
theorem c2_lex_failure_amended_witness :
    charStartsRule '@' = false ∧
    (lexStep ['@'] = some (Token.Error, []) ∧
     nextToken ['@'] = Except.ok (Token.Error, [])) :=
  ⟨by decide, c2_lex_failure_amended '@' [] (by decide)⟩

/-- C3 (counterexample). On exhausted input, `next_token` does not signal a
clean end of sequence: it returns
`Err(VentiError::SyntaxError("Unexpected end of input"))`. -/
theorem c3_end_of_input_counterexample :
    nextToken [] = Except.error (VentiError.SyntaxError "Unexpected end of input") := rfl

/-- C3 (amended). Whenever the underlying token stream is exhausted (`lexStep`
yields `none`), `next_token` surfaces the exhaustion as the error
`SyntaxError("Unexpected end of input")`, not as an end-of-sequence value. -/
theorem c3_end_of_input_amended (cs : List Char) (h : lexStep cs = none) :
    nextToken cs = Except.error (VentiError.SyntaxError "Unexpected end of input") := by
  unfold nextToken
  rw [h]

/-- C3 (witness for the amended theorem, at the empty input). -/
theorem c3_end_of_input_amended_witness :
    nextToken [] = Except.error (VentiError.SyntaxError "Unexpected end of input") :=
  c3_end_of_input_amended [] rfl

/-- C4 (counterexample). The parser's statement dispatch has no arm for the
`async` keyword: the token sequence `async f { }` is rejected with
`SyntaxError("Unexpected token: Some(Async)")` instead of producing an
AsyncFunctionDeclaration. -/
theorem c4_async_dispatch_counterexample :
    statement 32 [Token.Async, Token.Identifier "f", Token.LBrace, Token.RBrace]
      = PRes.err (VentiError.SyntaxError "Unexpected token: Some(Async)") := rfl

/-- C4 (amended). Every token sequence beginning with the `async` keyword is
rejected by statement dispatch with `SyntaxError("Unexpected token:
Some(Async)")`; the `Statement::AsyncFunction` AST variant and its lowering
exist but are unreachable from parsing. -/
theorem c4_async_dispatch_amended (f : Nat) (rest : List Token) :
    statement (f + 1) (Token.Async :: rest)
      = PRes.err (VentiError.SyntaxError "Unexpected token: Some(Async)") := rfl

/-- C5 (counterexample). A BinaryOp whose operands lower to an integer and a
float does not fail with a type-mismatch `CodegenError`: `compile_expr`
forces both operands through `into_int_value`, which panics on the float
value (modelled as the `fatal` outcome, distinct from every returned
`CodegenError`). -/
theorem c5_type_mismatch_counterexample :
    compileExpr initState (Expr.BinaryOp (Expr.Number 1) BinOp.Add (Expr.Float 0))
      = Except.error CgErr.fatal ∧
    CgErr.fatal ≠ CgErr.err (VentiError.CodegenError "type mismatch") := by
  exact ⟨rfl, by decide⟩

/-- The scalar integer instruction corresponding to each `BinOp`, as emitted
by the `Expr::BinaryOp` arm of `compile_expr`. -/
def instrOfOp : BinOp → CgValue → CgValue → Instr
  | BinOp.Add => Instr.add
  | BinOp.Subtract => Instr.sub
  | BinOp.Multiply => Instr.mul
  | BinOp.Divide => Instr.sdiv

/-- C5 (amended). When the two operands of a BinaryOp lower to different
scalar kinds (an integer and a float, in either order), lowering the
expression panics in `into_int_value` — no `CodegenError` is returned; when
both operands are integer literals, add/subtract/multiply/signed-divide each
emit the single corresponding integer instruction and return its result. -/
theorem c5_binaryop_amended (st : CGState) (op : BinOp) (n : Int) (fb : Nat) (a b : Int) :
    compileExpr st (Expr.BinaryOp (Expr.Number n) op (Expr.Float fb))
      = Except.error CgErr.fatal ∧
    compileExpr st (Expr.BinaryOp (Expr.Float fb) op (Expr.Number n))
      = Except.error CgErr.fatal ∧
    compileExpr st (Expr.BinaryOp (Expr.Number a) op (Expr.Number b))
      = Except.ok (CgValue.intInstr 64 st.instrs.length,
          { st with instrs := st.instrs ++
              [instrOfOp op (CgValue.intConst 64 (i64AsU64 a)) (CgValue.intConst 64 (i64AsU64 b))] }) := by
  refine ⟨?_, ?_, ?_⟩ <;> cases op <;> rfl

/-- C6. Parsing the lexed source `venti x = 1 + 2 * 3;` (with the language's
declaration keyword `venti`) yields exactly one VariableDeclaration whose
initializer is `BinaryOp(1, Add, BinaryOp(2, Multiply, 3))`; for every
number payloads, multiplication binds tighter than addition on either side,
and both operator levels associate to the left. -/
theorem c6_precedence_confirmed :
    parse 32 (lexAll "venti x = 1 + 2 * 3;")
      = PRes.ok [Statement.VariableDeclaration "x"
          (Expr.BinaryOp (Expr.Number 1) BinOp.Add
            (Expr.BinaryOp (Expr.Number 2) BinOp.Multiply (Expr.Number 3)))] [] ∧
    (∀ a b c : Int, expression 16
        [Token.NumberLiteral a, Token.Plus, Token.NumberLiteral b, Token.Star, Token.NumberLiteral c]
      = PRes.ok (Expr.BinaryOp (Expr.Number a) BinOp.Add
          (Expr.BinaryOp (Expr.Number b) BinOp.Multiply (Expr.Number c))) []) ∧
    (∀ a b c : Int, expression 16
        [Token.NumberLiteral a, Token.Star, Token.NumberLiteral b, Token.Plus, Token.NumberLiteral c]
      = PRes.ok (Expr.BinaryOp
          (Expr.BinaryOp (Expr.Number a) BinOp.Multiply (Expr.Number b)) BinOp.Add
          (Expr.Number c)) []) ∧
    (∀ a b c : Int, expression 16
        [Token.NumberLiteral a, Token.Plus, Token.NumberLiteral b, Token.Plus, Token.NumberLiteral c]
      = PRes.ok (Expr.BinaryOp
          (Expr.BinaryOp (Expr.Number a) BinOp.Add (Expr.Number b)) BinOp.Add
          (Expr.Number c)) []) ∧
    (∀ a b c : Int, expression 16
        [Token.NumberLiteral a, Token.Star, Token.NumberLiteral b, Token.Star, Token.NumberLiteral c]
      = PRes.ok (Expr.BinaryOp
          (Expr.BinaryOp (Expr.Number a) BinOp.Multiply (Expr.Number b)) BinOp.Multiply
          (Expr.Number c)) []) := by
  exact ⟨rfl, fun a b c => rfl, fun a b c => rfl, fun a b c => rfl, fun a b c => rfl⟩

/-- C7. Lowering a FunctionCall whose callee resolves to no function in the
module fails with `CodegenError("Undefined function '<name>'")` (the callee
is resolved before any argument is compiled); and for every name, lowering
the two-statement program `async <name> { }` followed by `<name>()` succeeds. -/
theorem c7_function_resolution_confirmed :
    (∀ (f : Nat) (st : CGState) (name : String) (args : List Expr),
        getFunction st name = none →
        compileStatement (f + 1) st (Statement.FunctionCall name args)
          = Except.error (CgErr.err (VentiError.CodegenError
              ("Undefined function \x27" ++ name ++ "\x27")))) ∧
    (∀ (f : Nat) (name : String), ∃ m : CGState,
        compileProgram (f + 4) [Statement.AsyncFunction name [], Statement.FunctionCall name []]
          = Except.ok m) := by
  constructor
  · intro f st name args h
    unfold compileStatement
    rw [h]
  · intro f name
    by_cases hp : name = "printf"
    · subst hp
      exact ⟨_, rfl⟩
    · refine ⟨CGState.mk [] ["printf", name] [Instr.retVoid, Instr.call name []], ?_⟩
      have hps : "printf" ≠ name := fun hx => hp hx.symm
      have hc : (["printf"].contains name) = false := by
        simp only [List.contains_cons, List.contains_nil, Bool.or_false,
          beq_eq_false_iff_ne, ne_eq]
        exact hp
      have hf : getFunction (CGState.mk [] ["printf", name] [Instr.retVoid]) name
          = some name := by
        simp only [getFunction, List.find?]
        simp [hps]
      have h1 : compileStatement (f + 3) initState (Statement.AsyncFunction name [])
          = Except.ok (CGState.mk [] ["printf", name] [Instr.retVoid]) := by
        unfold compileStatement compileAsyncFunction
        simp only [takenNames, initState, uniquify, List.map_nil, List.nil_append, hc,
          Bool.false_eq_true, if_false, List.cons_append]
        unfold compileStatements
        rfl
      have h2 : compileStatement (f + 2) (CGState.mk [] ["printf", name] [Instr.retVoid])
            (Statement.FunctionCall name [])
          = Except.ok (CGState.mk [] ["printf", name] [Instr.retVoid, Instr.call name []]) := by
        unfold compileStatement
        rw [hf]
        rfl
      show compileStatements (f + 4) initState _ = _
      unfold compileStatements
      rw [h1]
      show compileStatements (f + 3) (CGState.mk [] ["printf", name] [Instr.retVoid])
        [Statement.FunctionCall name []] = _
      unfold compileStatements
      rw [h2]
      show compileStatements (f + 2)
        (CGState.mk [] ["printf", name] [Instr.retVoid, Instr.call name []]) [] = _
      unfold compileStatements
      rfl

/-- C7 (witness, at the fresh module and the name `foo`). -/
theorem c7_function_resolution_witness :
    compileStatement 1 initState (Statement.FunctionCall "foo" [])
      = Except.error (CgErr.err (VentiError.CodegenError "Undefined function \x27foo\x27")) :=
  c7_function_resolution_confirmed.1 0 initState "foo" [] (by decide)

/-- C8 (counterexample). The tokens lexed from the literals `123` and `true`
carry no textual payload at all: the `NumberLiteral` and `BooleanLiteral`
variants are declared with `i64` / `bool` fields, so the conversion from text
happens at lexing, not in the parser. -/
theorem c8_raw_payload_counterexample :
    lexAll "123" = [Token.NumberLiteral 123] ∧
    tokenTextPayload (Token.NumberLiteral 123) = none ∧
    lexAll "true" = [Token.BooleanLiteral true] ∧
    tokenTextPayload (Token.BooleanLiteral true) = none := by
  exact ⟨rfl, rfl, rfl, rfl⟩

/-- C8 (amended). Number and boolean tokens carry already-converted values
(`i64` / `bool` payloads, produced at lexing); string tokens carry the raw
matched slice including its surrounding quotes; the parser performs no
conversion — it copies the number and string payloads unchanged into the
`Expr`, and its `primary` does not accept boolean tokens at all. -/
theorem c8_raw_payload_amended :
    lexAll "123" = [Token.NumberLiteral 123] ∧
    lexAll "true" = [Token.BooleanLiteral true] ∧
    lexAll "\"hi\"" = [Token.StringLiteral "\"hi\""] ∧
    (∀ (f : Nat) (n : Int) (ts : List Token),
        primary (f + 1) (Token.NumberLiteral n :: ts) = PRes.ok (Expr.Number n) ts) ∧
    (∀ (f : Nat) (s : String) (ts : List Token),
        primary (f + 1) (Token.StringLiteral s :: ts) = PRes.ok (Expr.String s) ts) ∧
    (∀ (f : Nat) (ts : List Token),
        primary (f + 1) (Token.BooleanLiteral true :: ts)
          = PRes.err (VentiError.SyntaxError "Unexpected token: Some(BooleanLiteral(true))")) := by
  exact ⟨rfl, rfl, rfl, fun f n ts => rfl, fun f s ts => rfl, fun f ts => rfl⟩

/-- C9. The comma separator is optional in array literals and call argument
lists: `[a b c]` and `[a, b, c]` parse to the same three-element
ArrayLiteral, and `fn(a b)` and `fn(a, b)` to the same two-argument
FunctionCall, for all number payloads; in particular the lexed sources
`[1 2 3]` and `[1, 2, 3]` parse identically. -/
theorem c9_optional_comma_confirmed :
    (∀ a b c : Int,
      expression 16 [Token.LBracket, Token.NumberLiteral a, Token.NumberLiteral b,
                     Token.NumberLiteral c, Token.RBracket]
        = PRes.ok (Expr.Array [Expr.Number a, Expr.Number b, Expr.Number c]) [] ∧
      expression 16 [Token.LBracket, Token.NumberLiteral a, Token.Comma, Token.NumberLiteral b,
                     Token.Comma, Token.NumberLiteral c, Token.RBracket]
        = PRes.ok (Expr.Array [Expr.Number a, Expr.Number b, Expr.Number c]) []) ∧
    (∀ (a b : Int) (fn : String),
      statement 16 [Token.Identifier fn, Token.LParen, Token.NumberLiteral a,
                    Token.NumberLiteral b, Token.RParen]
        = PRes.ok (Statement.FunctionCall fn [Expr.Number a, Expr.Number b]) [] ∧
      statement 16 [Token.Identifier fn, Token.LParen, Token.NumberLiteral a, Token.Comma,
                    Token.NumberLiteral b, Token.RParen]
        = PRes.ok (Statement.FunctionCall fn [Expr.Number a, Expr.Number b]) []) ∧
    expression 16 (lexAll "[1 2 3]") = expression 16 (lexAll "[1, 2, 3]") := by
  exact ⟨fun a b c => ⟨rfl, rfl⟩, fun a b fn => ⟨rfl, rfl⟩, rfl⟩

/-- C10. Lowering an Identifier bound as a module global yields the global's
address (`as_pointer_value`), not its stored value: no instruction — in
particular no load — is emitted (the state is unchanged), and the operand a
Print statement passes to the `printf` primitive for an identifier is exactly
that address. -/
theorem c10_identifier_address_confirmed (f : Nat) (st : CGState) (id : String)
    (entry : String × CgType × Option CgValue)
    (h : getGlobal st id = some entry) :
    compileExpr st (Expr.Identifier id) = Except.ok (CgValue.globalPtr id, st) ∧
    (getFunction st "printf" = some "printf" →
      compileStatement (f + 1) st (Statement.Print (Expr.Identifier id))
        = Except.ok { st with instrs := st.instrs ++ [Instr.call "printf" [CgValue.globalPtr id]] }) := by
  have h1 : compileExpr st (Expr.Identifier id) = Except.ok (CgValue.globalPtr id, st) := by
    unfold compileExpr
    rw [h]
  refine ⟨h1, fun hp => ?_⟩
  unfold compileStatement
  simp only [h1, hp]

/-- The module state used as the C10 witness input: one global `x` and the
`printf` declaration. -/
def exGlobalState : CGState :=
  { globals := [("x", CgType.intTy 64, some (CgValue.intConst 64 5))],
    functions := ["printf"], instrs := [] }

/-- C10 (witness, at a module holding a global `x`). -/
theorem c10_identifier_address_witness :
    compileExpr exGlobalState (Expr.Identifier "x")
      = Except.ok (CgValue.globalPtr "x", exGlobalState) ∧
    compileStatement 1 exGlobalState (Statement.Print (Expr.Identifier "x"))
      = Except.ok { exGlobalState with instrs := [Instr.call "printf" [CgValue.globalPtr "x"]] } := by
  have h := c10_identifier_address_confirmed 0 exGlobalState "x"
    ("x", CgType.intTy 64, some (CgValue.intConst 64 5)) (by decide)
  exact ⟨h.1, h.2 (by decide)⟩

end Venti
